import Mathlib

/-!
Verification of the `add` module of libium: the flag register (`Checks`),
the identifier router (`ModProvider::add`), the error normalization
(`From` conversions into `add::Error`), and the batch orchestrator
(`add_multiple` / `add_single`).

Rust strings are embedded as `List Char`; the byte inside the
`Cell<u8>` of `Checks` is embedded as a `Nat` (all bit operations used
stay below 8 bits, so no wrap-around can occur); fallible operations
return `Except`.
-/

/-- Identifier and name strings of the Rust code, as character lists. -/
abbrev Str := List Char

/-! ## Flag register `Checks` (src/add/mod.rs lines 43-116)

The `Cell<u8>` state is passed explicitly: each Rust method on `&self`
becomes a function from the current byte to the new byte (setters) or to
the read value (getters). -/

/-- State of the `Checks` register: the byte in the `Cell<u8>`. -/
abbrev Checks := Nat

/-- Embeds `Checks::default()`: the derived default, a zero byte. -/
def checks_default : Checks := 0

/-- Embeds `Checks::new_all_set`: `Cell::new(0b00000111)`. -/
def new_all_set : Checks := 0b00000111

/-- Embeds `Checks::set_perform_check`: `self.0.set(self.0.get() | 1 << 0)`. -/
def set_perform_check (v : Checks) : Checks := v ||| (1 <<< 0)

/-- Embeds `Checks::set_game_version`: `self.0.set(self.0.get() | 1 << 1)`. -/
def set_game_version (v : Checks) : Checks := v ||| (1 <<< 1)

/-- Embeds `Checks::set_mod_loader`: `self.0.set(self.0.get() | 1 << 2)`. -/
def set_mod_loader (v : Checks) : Checks := v ||| (1 <<< 2)

/-- Embeds `Checks::unset_perform_check`: `self.0.set(self.0.get() & 1 << 0)`. -/
def unset_perform_check (v : Checks) : Checks := v &&& (1 <<< 0)

/-- Embeds `Checks::unset_game_version`: `self.0.set(self.0.get() & 1 << 1)`. -/
def unset_game_version (v : Checks) : Checks := v &&& (1 <<< 1)

/-- Embeds `Checks::unset_mod_loader`: `self.0.set(self.0.get() & 1 << 2)`. -/
def unset_mod_loader (v : Checks) : Checks := v &&& (1 <<< 2)

/-- Embeds `Checks::perform_checks`: `self.0.get() & 1 != 0`. -/
def perform_checks (v : Checks) : Bool := v &&& 1 != 0

/-- Embeds `Checks::game_version`: `self.0.get() & (1 << 1) != 0`. -/
def game_version (v : Checks) : Bool := v &&& (1 <<< 1) != 0

/-- Embeds `Checks::mod_loader`: `self.0.get() & (1 << 2) != 0`. -/
def mod_loader (v : Checks) : Bool := v &&& (1 <<< 2) != 0

/-- Embeds `Checks::reset`: `self.0.set(0)`. -/
def checks_reset (_ : Checks) : Checks := 0

/-- Embeds `Checks::from(checks, game_version, mod_loader)`: starts from the
default and applies the three conditional setters in source order. -/
def checks_from (checks game_version mod_loader : Bool) : Checks :=
  let r := checks_default
  let r := if checks then set_perform_check r else r
  let r := if game_version then set_game_version r else r
  let r := if mod_loader then set_mod_loader r else r
  r

/-- C1: the claim says that after `unset_X` the read `X()` returns false for
every prior state. The code computes `get() & (1 << k)`, which KEEPS bit k
(and clears the others), so on the all-set state every `unset_X` leaves its
own flag readable as true. This theorem evaluates the code at that failing
input, refuting the claim; the doc comments of the source ("Set
\"perform_checks\" bit to false") show the claim is the intent and the code
a slip (`&` should be `& !`). -/
theorem unset_leaves_own_flag_set :
    perform_checks (unset_perform_check new_all_set) = true ∧
    game_version (unset_game_version new_all_set) = true ∧
    mod_loader (unset_mod_loader new_all_set) = true := by decide

/-- C2: the claim says each set/unset touches only its own flag and that
unsetting an already-unset flag is a no-op. On the all-set state,
`unset_perform_check` computes `0b111 & 0b001 = 0b001`, clearing the OTHER
two flags; and on the state `0b110` (perform_checks already unset) it
changes the state to `0`, so it is not a no-op. This theorem evaluates the
code at those failing inputs. -/
theorem unset_clobbers_other_flags :
    game_version new_all_set = true ∧
    mod_loader new_all_set = true ∧
    game_version (unset_perform_check new_all_set) = false ∧
    mod_loader (unset_perform_check new_all_set) = false ∧
    unset_perform_check (set_game_version (set_mod_loader checks_default)) ≠
      set_game_version (set_mod_loader checks_default) := by decide

/-- C8: `Checks::from(p, g, m)` yields reads `perform_checks() = p`,
`game_version() = g`, `mod_loader() = m` for all 8 boolean combinations,
and the default register reads all three flags false. -/
theorem checks_from_reads :
    (∀ p g m : Bool,
      perform_checks (checks_from p g m) = p ∧
      game_version (checks_from p g m) = g ∧
      mod_loader (checks_from p g m) = m) ∧
    perform_checks checks_default = false ∧
    game_version checks_default = false ∧
    mod_loader checks_default = false := by decide

/-! ## Identifier routing (src/add/mod.rs lines 143-160)

`ModProvider::add` tries `identifier.parse::<i32>()`, then counts the
occurrences of `'/'`, then falls through to Modrinth. The GitHub branch
splits the identifier on `'/'` and indexes segments 0 and 1. -/

/-- The value of a decimal digit string, as accumulated left to right. -/
def digitsToNat (ds : Str) : Nat := ds.foldl (fun acc c => acc * 10 + (c.toNat - 48)) 0

/-- Embeds Rust `str::parse::<i32>`: an optional single leading `+` or `-`
followed by at least one character, all decimal digits, whose value fits in
a signed 32-bit integer; anything else fails. -/
def parse_i32 (s : Str) : Option Int :=
  let core : Bool → Str → Option Int := fun neg ds =>
    if ds = [] then none
    else if ds.all (fun c => c.isDigit) then
      let n := digitsToNat ds
      if neg then (if n ≤ 2 ^ 31 then some (-(n : Int)) else none)
      else (if n < 2 ^ 31 then some (n : Int) else none)
    else none
  match s with
  | '+' :: rest => core false rest
  | '-' :: rest => core true rest
  | _ => core false s

/-- Embeds `identifier.matches('/').count()`: the number of occurrences of a
character in the string. -/
def countChar (c : Char) : Str → Nat
  | [] => 0
  | x :: xs => (if x = c then 1 else 0) + countChar c xs

/-- Embeds `identifier.split('/')` (Rust `str::split` on a `char` pattern):
the list of segments between occurrences of the separator, keeping empty
segments, with one more segment than separators. -/
def splitChar (c : Char) : Str → List Str
  | [] => [[]]
  | x :: xs =>
    let r := splitChar c xs
    if x = c then [] :: r else (x :: r.headD []) :: r.tail

/-- The routing decision of `ModProvider::add`: which adapter is selected
and with which arguments. -/
inductive Dispatch where
  | curseforge (project_id : Int)
  | github (owner repo : Str)
  | modrinth (identifier : Str)
deriving DecidableEq

/-- Embeds the routing of `ModProvider::add` together with the splitting in
`ModProvider::github`: parse as `i32` first, else exactly one `'/'` selects
GitHub with `split[0]` and `split[1]`, else Modrinth with the whole
identifier. Segment indexing is rendered with `headD`; the split always has
exactly two segments in this branch (see `github_split_in_bounds`). -/
def route (identifier : Str) : Dispatch :=
  match parse_i32 identifier with
  | some project_id => .curseforge project_id
  | none =>
    if countChar '/' identifier = 1 then
      let split := splitChar '/' identifier
      .github (split.headD []) (split.tail.headD [])
    else .modrinth identifier

/-- Helper: splitting never yields an empty list of segments. -/
theorem splitChar_ne_nil (c : Char) (s : Str) : splitChar c s ≠ [] := by
  cases s with
  | nil => simp [splitChar]
  | cons x xs =>
    simp only [splitChar]
    split <;> simp

/-- Helper: the split has one more segment than there are separators. -/
theorem splitChar_length (c : Char) (s : Str) :
    (splitChar c s).length = countChar c s + 1 := by
  induction s with
  | nil => simp [splitChar, countChar]
  | cons x xs ih =>
    by_cases h : x = c
    · simp [splitChar, countChar, h, ih]
      omega
    · cases hr : splitChar c xs with
      | nil => exact absurd hr (splitChar_ne_nil c xs)
      | cons a as =>
        rw [hr] at ih
        simp only [splitChar, countChar, h, if_false, hr, if_neg h]
        simp only [List.length_cons] at ih ⊢
        simp [List.tail]
        omega

/-- C3: `ModProvider::add` routes by first match in a fixed order: an
identifier that parses as a signed 32-bit integer goes to CurseForge;
otherwise one containing exactly one `'/'` goes to GitHub; otherwise it
goes to Modrinth. In particular `"12345"` routes to CurseForge (so never to
GitHub or Modrinth, the `Dispatch` constructors being distinct),
`"owner/repo"` to GitHub and `"sodium"` to Modrinth. -/
theorem routing_first_match :
    (∀ s n, parse_i32 s = some n → route s = .curseforge n) ∧
    (∀ s, parse_i32 s = none → countChar '/' s = 1 →
      route s = .github ((splitChar '/' s).headD []) ((splitChar '/' s).tail.headD [])) ∧
    (∀ s, parse_i32 s = none → countChar '/' s ≠ 1 → route s = .modrinth s) ∧
    route ("12345".toList) = .curseforge 12345 ∧
    route ("owner/repo".toList) = .github ("owner".toList) ("repo".toList) ∧
    route ("sodium".toList) = .modrinth ("sodium".toList) := by
  refine ⟨?_, ?_, ?_, ?_, ?_, ?_⟩
  · intro s n h; simp [route, h]
  · intro s h1 h2; simp [route, h1, h2]
  · intro s h1 h2; simp [route, h1, h2]
  · decide
  · decide
  · decide

/-- Witness for `routing_first_match` at the concrete identifier
`"sodium"`, discharging both hypotheses of the Modrinth branch. -/
theorem routing_first_match_witness :
    route ("sodium".toList) = Dispatch.modrinth ("sodium".toList) :=
  routing_first_match.2.2.1 ("sodium".toList) (by decide) (by decide)

/-- C9: whenever the identifier fails the `i32` parse and contains exactly
one `'/'`, the split yields exactly two segments (possibly empty), so the
indices 0 and 1 used by `ModProvider::github` are in bounds; the routing
performs no rejection of empty segments (its codomain `Dispatch` has no
error case, matching the source, which validates nothing before dispatch),
as the concrete identifiers `"/repo"` and `"owner/"` show: both are handed
to the GitHub adapter with an empty segment. -/
theorem github_split_in_bounds :
    (∀ s : Str, parse_i32 s = none → countChar '/' s = 1 →
      (splitChar '/' s).length = 2 ∧
      route s = .github ((splitChar '/' s).headD []) ((splitChar '/' s).tail.headD [])) ∧
    route ("/repo".toList) = .github [] ("repo".toList) ∧
    route ("owner/".toList) = .github ("owner".toList) [] := by
  refine ⟨?_, ?_, ?_⟩
  · intro s h1 h2
    refine ⟨?_, ?_⟩
    · rw [splitChar_length, h2]
    · simp [route, h1, h2]
  · decide
  · decide

/-- Witness for `github_split_in_bounds` at the concrete identifier
`"owner/repo"`. -/
theorem github_split_in_bounds_witness :
    (splitChar '/' ("owner/repo".toList)).length = 2 ∧
    route ("owner/repo".toList) =
      Dispatch.github ((splitChar '/' ("owner/repo".toList)).headD [])
        ((splitChar '/' ("owner/repo".toList)).tail.headD []) :=
  github_split_in_bounds.1 ("owner/repo".toList) (by decide) (by decide)

/-! ## Error taxonomy and normalization (src/add/mod.rs lines 10-32, 168-205)

The three provider error types are embedded with the variants the
conversions inspect made explicit and all remaining variants collapsed into
an `other` constructor carrying an opaque tag (the conversions treat them
uniformly, wrapping them verbatim). A reqwest transport error is embedded
by its observable `status()`, an `Option` of the HTTP status code. -/

/-- Embeds `furse::Error`: a `ReqwestError` carrying an optional HTTP
status, or any other variant. -/
inductive FurseError where
  | reqwestError (status : Option Nat)
  | other (tag : Nat)
deriving DecidableEq

/-- Embeds `ferinth::Error`: a `ReqwestError` carrying an optional HTTP
status, the `InvalidIDorSlug` variant matched by `add_multiple`, or any
other variant. -/
inductive FerinthError where
  | reqwestError (status : Option Nat)
  | invalidIDorSlug
  | other (tag : Nat)
deriving DecidableEq

/-- Embeds `octocrab::Error`: the `GitHub` variant whose source carries a
message string, or any other variant. -/
inductive OctocrabError where
  | gitHub (message : Str)
  | other (tag : Nat)
deriving DecidableEq

/-- Embeds `add::Error`: the closed normalized error taxonomy. -/
inductive AddError where
  | distributionDenied
  | alreadyAdded
  | doesNotExist
  | incompatible
  | notAMod
  | invalidIdentifier
  | gitHubError (e : OctocrabError)
  | modrinthError (e : FerinthError)
  | curseForgeError (e : FurseError)
deriving DecidableEq

/-- The message `"Not Found"` compared against by the octocrab conversion. -/
def notFoundMsg : Str := "Not Found".toList

/-- Embeds `impl From<furse::Error> for Error`: a reqwest error with status
404 becomes `DoesNotExist`; everything else is wrapped verbatim. -/
def fromFurse : FurseError → AddError
  | .reqwestError status =>
    if status = some 404 then .doesNotExist
    else .curseForgeError (.reqwestError status)
  | e => .curseForgeError e

/-- Embeds `impl From<ferinth::Error> for Error`: a reqwest error with
status 404 becomes `DoesNotExist`; everything else is wrapped verbatim. -/
def fromFerinth : FerinthError → AddError
  | .reqwestError status =>
    if status = some 404 then .doesNotExist
    else .modrinthError (.reqwestError status)
  | e => .modrinthError e

/-- Embeds `impl From<octocrab::Error> for Error`: a `GitHub` variant whose
source message is exactly `"Not Found"` becomes `DoesNotExist`; everything
else is wrapped verbatim. -/
def fromOctocrab : OctocrabError → AddError
  | .gitHub message =>
    if message = notFoundMsg then .doesNotExist
    else .gitHubError (.gitHub message)
  | e => .gitHubError e

/-- C4: a CurseForge or Modrinth transport error with HTTP status 404
converts to `DoesNotExist`; a GitHub API error with message exactly
`"Not Found"` converts to `DoesNotExist`; every other error from each
provider converts to that provider's wrapped kind carrying the original
error unchanged. -/
theorem error_normalization :
    fromFurse (.reqwestError (some 404)) = .doesNotExist ∧
    (∀ e : FurseError, e ≠ .reqwestError (some 404) → fromFurse e = .curseForgeError e) ∧
    fromFerinth (.reqwestError (some 404)) = .doesNotExist ∧
    (∀ e : FerinthError, e ≠ .reqwestError (some 404) → fromFerinth e = .modrinthError e) ∧
    fromOctocrab (.gitHub notFoundMsg) = .doesNotExist ∧
    (∀ e : OctocrabError, (∀ m, e = .gitHub m → m ≠ notFoundMsg) →
      fromOctocrab e = .gitHubError e) := by
  refine ⟨by decide, ?_, by decide, ?_, by decide, ?_⟩
  · intro e h
    cases e with
    | reqwestError status =>
      have : status ≠ some 404 := by intro hs; exact h (by rw [hs])
      simp [fromFurse, this]
    | other tag => simp [fromFurse]
  · intro e h
    cases e with
    | reqwestError status =>
      have : status ≠ some 404 := by intro hs; exact h (by rw [hs])
      simp [fromFerinth, this]
    | invalidIDorSlug => simp [fromFerinth]
    | other tag => simp [fromFerinth]
  · intro e h
    cases e with
    | gitHub message =>
      have : message ≠ notFoundMsg := h message rfl
      simp [fromOctocrab, this]
    | other tag => simp [fromOctocrab]

/-- Witness for `error_normalization`: a non-404 CurseForge transport error
is wrapped verbatim. -/
theorem error_normalization_witness :
    fromFurse (.reqwestError (some 500)) =
      AddError.curseForgeError (.reqwestError (some 500)) :=
  error_normalization.2.1 (.reqwestError (some 500)) (by decide)

/-! ## Batch orchestration (src/add/mod.rs lines 207-244)

The three provider adapters (`curseforge::curseforge`, `github::github`,
`modrinth::modrinth`) are external network collaborators; they are
abstracted as arbitrary functions returning `Except AddError Str`, exactly
the shape of the `Result<String>` each call site sees after the automatic
`From` conversions. `ModProvider::add` is the routing decision applied to
them; `add_multiple` is a fold over the identifiers appending each outcome
to the success or failure accumulator, re-kinding the one Modrinth error;
`add_single` constructs a provider and calls `add` once. -/

/-- The error re-kinding step of `add_multiple`: the Modrinth
`InvalidIDorSlug` failure becomes `InvalidIdentifier`; all other errors
pass through unchanged. -/
def rekindErr : AddError → AddError
  | .modrinthError .invalidIDorSlug => .invalidIdentifier
  | e => e

/-- Embeds `ModProvider::add` over abstract adapters `cf`, `gh`, `mr`:
the routing decision of `route` delegated to the selected adapter. -/
def runAdd (cf : Int → Except AddError Str) (gh : Str → Str → Except AddError Str)
    (mr : Str → Except AddError Str) (identifier : Str) : Except AddError Str :=
  match route identifier with
  | .curseforge n => cf n
  | .github o r => gh o r
  | .modrinth i => mr i

/-- The loop of `add_multiple` with its two accumulators (`success_names`
and `failures`), to which each outcome is appended in processing order. -/
def add_multiple_go (f : Str → Except AddError Str) :
    List Str → List Str → List (Str × AddError) → List Str × List (Str × AddError)
  | [], succ, fail => (succ, fail)
  | id :: rest, succ, fail =>
    match f id with
    | .ok name => add_multiple_go f rest (succ ++ [name]) fail
    | .error e => add_multiple_go f rest succ (fail ++ [(id, rekindErr e)])

/-- Embeds `add_multiple`: drive the dispatcher over the identifiers,
starting from empty accumulators. -/
def add_multiple (cf : Int → Except AddError Str) (gh : Str → Str → Except AddError Str)
    (mr : Str → Except AddError Str) (identifiers : List Str) :
    List Str × List (Str × AddError) :=
  add_multiple_go (runAdd cf gh mr) identifiers [] []

/-- Embeds `add_single`: construct a `ModProvider` and call `add` once, with
no batch accumulation and no re-kinding. -/
def add_single (cf : Int → Except AddError Str) (gh : Str → Str → Except AddError Str)
    (mr : Str → Except AddError Str) (identifier : Str) : Except AddError Str :=
  runAdd cf gh mr identifier

/-- The success entry an identifier contributes, if any. -/
def okPart (f : Str → Except AddError Str) (id : Str) : Option Str :=
  (f id).toOption

/-- The failure entry an identifier contributes, if any. -/
def errPart (f : Str → Except AddError Str) (id : Str) : Option (Str × AddError) :=
  match f id with
  | .error e => some (id, rekindErr e)
  | .ok _ => none

/-- Whether the dispatch of one identifier succeeds. -/
def addSucceeds (f : Str → Except AddError Str) (id : Str) : Bool :=
  match f id with
  | .ok _ => true
  | .error _ => false

/-- Helper: closed form of the loop — each accumulator ends as its initial
value followed by the contributions of the identifiers in input order. -/
theorem add_multiple_go_spec (f : Str → Except AddError Str) (ids : List Str) :
    ∀ succ fail, add_multiple_go f ids succ fail =
      (succ ++ ids.filterMap (okPart f), fail ++ ids.filterMap (errPart f)) := by
  induction ids with
  | nil => intro succ fail; simp [add_multiple_go]
  | cons id rest ih =>
    intro succ fail
    cases h : f id with
    | ok name =>
      simp only [add_multiple_go, h, ih, List.filterMap_cons, okPart, errPart,
        Except.toOption]
      simp [h]
    | error e =>
      simp only [add_multiple_go, h, ih, List.filterMap_cons, okPart, errPart,
        Except.toOption]
      simp [h]

/-- Helper: counting the contributions — every identifier contributes to
exactly one of the two entry streams. -/
theorem filterMap_parts_count (f : Str → Except AddError Str) (ids : List Str) :
    (ids.filterMap (okPart f)).length + (ids.filterMap (errPart f)).length = ids.length ∧
    (ids.filterMap (okPart f)).length = (ids.filter (addSucceeds f)).length ∧
    (ids.filterMap (errPart f)).map Prod.fst =
      ids.filter (fun id => !(addSucceeds f id)) := by
  induction ids with
  | nil => simp
  | cons id rest ih =>
    obtain ⟨ih1, ih2, ih3⟩ := ih
    cases h : f id with
    | ok name =>
      have ho : okPart f id = some name := by simp [okPart, h, Except.toOption]
      have he : errPart f id = none := by simp [errPart, h]
      have hs : addSucceeds f id = true := by simp [addSucceeds, h]
      simp only [List.filterMap_cons, List.filter_cons, ho, he, hs]
      simp only [List.length_cons, Bool.not_true, if_pos, if_neg, Bool.false_eq_true,
        not_false_eq_true, ite_true, ite_false]
      refine ⟨by omega, by simp [ih2], by simp [ih3]⟩
    | error e =>
      have ho : okPart f id = none := by simp [okPart, h, Except.toOption]
      have he : errPart f id = some (id, rekindErr e) := by simp [errPart, h]
      have hs : addSucceeds f id = false := by simp [addSucceeds, h]
      simp only [List.filterMap_cons, List.filter_cons, ho, he, hs]
      simp only [List.length_cons, List.map_cons, Bool.not_false, Bool.false_eq_true,
        not_false_eq_true, ite_true, ite_false]
      refine ⟨by omega, by simp [ih2], by simp [ih3]⟩

/-- C5: for every input sequence of identifiers, the success list and the
failure list of `add_multiple` partition the inputs: their lengths sum to
the input length, the success count equals the number of identifiers whose
dispatch succeeds, and the identifiers paired in the failure list are
exactly (in order, hence as a multiset) those whose dispatch fails — so
each input contributes exactly one entry, never both and never neither. -/
theorem add_multiple_partition (cf : Int → Except AddError Str)
    (gh : Str → Str → Except AddError Str) (mr : Str → Except AddError Str)
    (ids : List Str) :
    (add_multiple cf gh mr ids).1.length + (add_multiple cf gh mr ids).2.length
        = ids.length ∧
    (add_multiple cf gh mr ids).1.length
        = (ids.filter (addSucceeds (runAdd cf gh mr))).length ∧
    (add_multiple cf gh mr ids).2.map Prod.fst
        = ids.filter (fun id => !(addSucceeds (runAdd cf gh mr) id)) := by
  have hspec := add_multiple_go_spec (runAdd cf gh mr) ids [] []
  have hcount := filterMap_parts_count (runAdd cf gh mr) ids
  rw [add_multiple, hspec]
  simpa using hcount

/-- Helper: closed form of `add_multiple` — both output lists are in-order
streams of per-identifier contributions. -/
theorem add_multiple_closed_form (cf : Int → Except AddError Str)
    (gh : Str → Str → Except AddError Str) (mr : Str → Except AddError Str)
    (ids : List Str) :
    add_multiple cf gh mr ids =
      (ids.filterMap (okPart (runAdd cf gh mr)),
       ids.filterMap (errPart (runAdd cf gh mr))) := by
  rw [add_multiple, add_multiple_go_spec]
  simp

/-- C6: `add_multiple` processes identifiers strictly in input order and
never aborts: the success list is exactly the in-order stream of success
entries and the failure list the in-order stream of failure entries
(`filterMap` preserves relative input order), and a failing identifier at
the head contributes its own failure entry while the tail is processed
exactly as it would be alone. -/
theorem add_multiple_order (cf : Int → Except AddError Str)
    (gh : Str → Str → Except AddError Str) (mr : Str → Except AddError Str) :
    (∀ ids, add_multiple cf gh mr ids =
      (ids.filterMap (okPart (runAdd cf gh mr)),
       ids.filterMap (errPart (runAdd cf gh mr)))) ∧
    (∀ id rest e, runAdd cf gh mr id = .error e →
      add_multiple cf gh mr (id :: rest) =
        ((add_multiple cf gh mr rest).1,
         (id, rekindErr e) :: (add_multiple cf gh mr rest).2)) := by
  refine ⟨add_multiple_closed_form cf gh mr, ?_⟩
  intro id rest e h
  rw [add_multiple_closed_form, add_multiple_closed_form, List.filterMap_cons,
    List.filterMap_cons]
  simp [okPart, errPart, h, Except.toOption]

/-- Witness for `add_multiple_order`: with adapters sending every Modrinth
identifier to an `AlreadyAdded` failure, prepending `"sodium"` to a batch
prepends exactly its failure entry. -/
theorem add_multiple_order_witness :
    add_multiple (fun _ => .ok ("cf".toList)) (fun _ _ => .ok ("gh".toList))
        (fun _ => .error .alreadyAdded) (("sodium".toList) :: [("a".toList)]) =
      ((add_multiple (fun _ => .ok ("cf".toList)) (fun _ _ => .ok ("gh".toList))
          (fun _ => .error .alreadyAdded) [("a".toList)]).1,
       (("sodium".toList), rekindErr .alreadyAdded) ::
        (add_multiple (fun _ => .ok ("cf".toList)) (fun _ _ => .ok ("gh".toList))
          (fun _ => .error .alreadyAdded) [("a".toList)]).2) :=
  (add_multiple_order _ _ _).2 ("sodium".toList) [("a".toList)] .alreadyAdded (by rfl)

/-- C7: inside `add_multiple`, a dispatch failing with the Modrinth
`InvalidIDorSlug` error is recorded re-kinded as `InvalidIdentifier`, and
every other error kind is recorded unchanged, paired with its identifier at
the head of the failure entries for the remaining batch. -/
theorem add_multiple_rekinds_invalid_slug :
    rekindErr (.modrinthError .invalidIDorSlug) = .invalidIdentifier ∧
    (∀ e : AddError, e ≠ .modrinthError .invalidIDorSlug → rekindErr e = e) ∧
    (∀ (cf : Int → Except AddError Str) (gh : Str → Str → Except AddError Str)
        (mr : Str → Except AddError Str) (id : Str) (rest : List Str) (e : AddError),
      runAdd cf gh mr id = .error e →
      (add_multiple cf gh mr (id :: rest)).2 =
        (id, if e = .modrinthError .invalidIDorSlug then .invalidIdentifier else e) ::
          (add_multiple cf gh mr rest).2) := by
  have hrk : ∀ e : AddError,
      rekindErr e = if e = .modrinthError .invalidIDorSlug then .invalidIdentifier else e := by
    intro e
    cases e with
    | modrinthError m => cases m <;> simp [rekindErr]
    | _ => simp [rekindErr]
  refine ⟨by simp [rekindErr], ?_, ?_⟩
  · intro e h
    rw [hrk, if_neg h]
  · intro cf gh mr id rest e h
    rw [add_multiple_closed_form, add_multiple_closed_form, List.filterMap_cons]
    simp [errPart, h, hrk]

/-- Witness for `add_multiple_rekinds_invalid_slug`: a batch whose single
identifier fails with the Modrinth invalid-slug error records it re-kinded
(evaluating the `if` at that error), applied through the theorem. -/
theorem add_multiple_rekind_witness :
    (add_multiple (fun _ => .ok ("cf".toList)) (fun _ _ => .ok ("gh".toList))
        (fun _ => .error (.modrinthError .invalidIDorSlug)) [("sodium".toList)]).2 =
      (("sodium".toList),
        if (AddError.modrinthError .invalidIDorSlug) = .modrinthError .invalidIDorSlug
        then AddError.invalidIdentifier else .modrinthError .invalidIDorSlug) ::
        (add_multiple (fun _ => .ok ("cf".toList)) (fun _ _ => .ok ("gh".toList))
          (fun _ => .error (.modrinthError .invalidIDorSlug)) []).2 :=
  add_multiple_rekinds_invalid_slug.2.2 _ _ _ ("sodium".toList) [] _ (by rfl)

/-! ## Single-add never yields `InvalidIdentifier` -/

/-- Modelled from the spec: the adapter submodules `add::curseforge`,
`add::github` and `add::modrinth` are not among the given sources; §4.2
requires each adapter to fail only with `DistributionDenied`,
`AlreadyAdded`, `DoesNotExist`, `Incompatible`, `NotAMod`, or a
provider-specific transport/API error — and such a raw provider error
crosses into core code through the automatic `From` conversions, so that
what the call site sees is the image of one of `fromFurse`, `fromFerinth`
or `fromOctocrab`. -/
def SpecAdapterError (e : AddError) : Prop :=
  e = .distributionDenied ∨ e = .alreadyAdded ∨ e = .doesNotExist ∨
  e = .incompatible ∨ e = .notAMod ∨
  (∃ x, e = fromFurse x) ∨ (∃ x, e = fromFerinth x) ∨ (∃ x, e = fromOctocrab x)

/-- Helper: no `From` conversion and no spec-allowed adapter failure ever
produces the `InvalidIdentifier` kind. -/
theorem specAdapterError_ne_invalid (e : AddError) (h : SpecAdapterError e) :
    e ≠ .invalidIdentifier := by
  rcases h with h | h | h | h | h | ⟨x, h⟩ | ⟨x, h⟩ | ⟨x, h⟩ <;> subst h
  · simp
  · simp
  · simp
  · simp
  · simp
  · cases x with
    | reqwestError status =>
      by_cases hs : status = some 404 <;> simp [fromFurse, hs]
    | other tag => simp [fromFurse]
  · cases x with
    | reqwestError status =>
      by_cases hs : status = some 404 <;> simp [fromFerinth, hs]
    | invalidIDorSlug => simp [fromFerinth]
    | other tag => simp [fromFerinth]
  · cases x with
    | gitHub message =>
      by_cases hs : message = notFoundMsg <;> simp [fromOctocrab, hs]
    | other tag => simp [fromOctocrab]

/-- C10: `add_single` never returns `Error::InvalidIdentifier`: it performs
the dispatch with no re-kinding step (that step lives only in
`add_multiple`), and when each adapter honours the failure contract of the
spec — whose error set does not contain `InvalidIdentifier`, and whose raw
provider errors are normalized by conversions that never construct it —
the error `add_single` returns cannot be `InvalidIdentifier`. -/
theorem add_single_no_invalid_identifier (cf : Int → Except AddError Str)
    (gh : Str → Str → Except AddError Str) (mr : Str → Except AddError Str)
    (hcf : ∀ n e, cf n = .error e → SpecAdapterError e)
    (hgh : ∀ o r e, gh o r = .error e → SpecAdapterError e)
    (hmr : ∀ i e, mr i = .error e → SpecAdapterError e)
    (s : Str) (e : AddError) (h : add_single cf gh mr s = .error e) :
    e ≠ .invalidIdentifier := by
  rw [add_single, runAdd] at h
  cases hr : route s with
  | curseforge n =>
    rw [hr] at h
    exact specAdapterError_ne_invalid e (hcf n e h)
  | github o r =>
    rw [hr] at h
    exact specAdapterError_ne_invalid e (hgh o r e h)
  | modrinth i =>
    rw [hr] at h
    exact specAdapterError_ne_invalid e (hmr i e h)

/-- Witness for `add_single_no_invalid_identifier`: concrete adapters that
fail with `AlreadyAdded` on Modrinth identifiers and succeed elsewhere,
applied at `"sodium"`. -/
theorem add_single_no_invalid_identifier_witness :
    AddError.alreadyAdded ≠ AddError.invalidIdentifier :=
  add_single_no_invalid_identifier (fun _ => .ok ("cf".toList))
    (fun _ _ => .ok ("gh".toList)) (fun _ => .error .alreadyAdded)
    (fun _ e h => Except.noConfusion h)
    (fun _ _ e h => Except.noConfusion h)
    (fun _ e h => by
      rw [Except.error.injEq] at h
      subst h
      exact Or.inr (Or.inl rfl))
    ("sodium".toList) .alreadyAdded (by rfl)
